import Mathlib

/-!
Verification of the on-call rotation and escalation engine
(`oncall-service/app/routers/api.py`), shallowly embedded in Lean 4.

Dates are modelled as day numbers (`Int`), instants as minute numbers
(`Int`).  The ambient clock and time-zone database are modelled by a
`TimeEnv` passed explicitly: `localDate z` / `localHour z` give the local
calendar day and local hour that `datetime.now(ZoneInfo z)` would report,
and `validTz z` tells whether `ZoneInfo(z)` resolves.  The persistent
store (schedules, escalation policies, escalation timers, escalation
records) is an explicit `DB` value, and every endpoint is a function from
a `DB` to a result together with the updated `DB`.  Injected `Faults`
flags model the `try/except` blocks around individual persistence and
collaborator calls.
-/

namespace Oncall

/-- `app.models.Engineer` — one entry of a schedule's `engineers` JSONB list. -/
structure Engineer where
  name : String
  email : String
  primaryHint : Bool
deriving DecidableEq, Repr

/-- Placeholder engineer used to express list indexing (indices are always
in bounds in the code, since they are reduced `mod len(engineer_list)`). -/
def dummyEngineer : Engineer := ⟨"", "", false⟩

/-- The ambient clock / tz database read by `datetime.now(tz)` and
`ZoneInfo(name)` in `_compute_current_oncall`. -/
structure TimeEnv where
  validTz : String → Bool
  localDate : String → Int
  localHour : String → Nat

/-- A row of `oncall.schedules`.  `handoff_hour` and `timezone` are
optional because `_compute_current_oncall` reads them with `.get` and
applies defaults. -/
structure Schedule where
  team : String
  rotation_type : String
  start_date : Int
  engineers : List Engineer
  escalation_minutes : Nat
  handoff_hour : Option Nat
  timezone : Option String
  created_at : Nat
deriving DecidableEq, Repr

/-- `schedule.get("timezone") or "UTC"`: a missing or empty zone name
falls back to `"UTC"` before `ZoneInfo` is even tried. -/
def requestedTz (s : Schedule) : String :=
  match s.timezone with
  | some t => if t = "" then "UTC" else t
  | none => "UTC"

/-- `try: tz = ZoneInfo(tz_name) except (ZoneInfoNotFoundError, KeyError):
tz = ZoneInfo("UTC")` — an unknown/invalid zone is replaced by UTC. -/
def resolvedTz (s : Schedule) (env : TimeEnv) : String :=
  if env.validTz (requestedTz s) then requestedTz s else "UTC"

/-- `_compute_current_oncall` (api.py:55-120): handoff-hour aware rotation.
Returns `(primary, secondary)`; secondary is `none` for a single-engineer
team. -/
def compute_current_oncall (s : Schedule) (env : TimeEnv) :
    Option Engineer × Option Engineer :=
  if s.engineers = [] then (none, none)
  else
    let engineer_list := s.engineers
    let start := s.start_date
    let handoff_hour := s.handoff_hour.getD 9
    let tz := resolvedTz s env
    let now_date := env.localDate tz
    let now_hour := env.localHour tz
    let effective_date := if now_hour < handoff_hour then now_date - 1 else now_date
    let delta_days : Nat := (effective_date - start).toNat
    let n := engineer_list.length
    let idx := if s.rotation_type = "daily" then delta_days % n else delta_days / 7 % n
    let primary := engineer_list.getD idx dummyEngineer
    let secondary :=
      if 1 < n then some (engineer_list.getD ((idx + 1) % n) dummyEngineer) else none
    (some primary, secondary)

/-- The slice of `app.config.Settings` the engine reads. -/
structure Settings where
  DEFAULT_ESCALATION_MINUTES : Nat
  MANAGER_EMAIL : String
  ESCALATION_LOOP_COUNT : Nat
deriving DecidableEq, Repr

/-- The defaults declared in `app/config.py`. -/
def defaultSettings : Settings :=
  { DEFAULT_ESCALATION_MINUTES := 5
    MANAGER_EMAIL := "admin@expertmind.local"
    ESCALATION_LOOP_COUNT := 2 }

/-- A row of `oncall.escalation_policies`. -/
structure PolicyLevel where
  team : String
  level : Nat
  wait_minutes : Nat
  notify_target : String
deriving DecidableEq, Repr

/-- A row of `oncall.escalation_timers`. -/
structure Timer where
  id : Nat
  incident_id : String
  team : String
  current_level : Nat
  assigned_to : String
  escalate_after : Int
  is_active : Bool
deriving DecidableEq, Repr

/-- A row of `oncall.escalations` (append-only escalation history). -/
structure EscRecord where
  id : Nat
  incident_id : String
  from_engineer : String
  to_engineer : String
  level : Nat
  reason : String
  escalated_at : Int
deriving DecidableEq, Repr

/-- The persistent store (four tables) plus the stream of notifications
handed to the external NotificationGateway.  `nextId` models the fresh-id
generator (uuid / DB default). -/
structure DB where
  schedules : List Schedule
  policies : List PolicyLevel
  timers : List Timer
  escalations : List EscRecord
  outbox : List String
  nextId : Nat
deriving DecidableEq, Repr

def emptyDB : DB := ⟨[], [], [], [], [], 0⟩

/-- Injected failures for the individual `try/except`-guarded persistence
and collaborator calls. -/
structure Faults where
  policyLookupFails : Bool
  insertTimerFails : Bool
  insertEscalationFails : Bool
  deactivateIncidentTimersFails : Bool
  deactivateTimerFails : Bool
  notifyFails : Bool
deriving DecidableEq, Repr

def noFaults : Faults := ⟨false, false, false, false, false, false⟩

/-- Structured errors raised via `HTTPException`. -/
inductive ApiError where
  | notFound (msg : String)
  | unprocessable (msg : String)
  | serverError (msg : String)
deriving DecidableEq, Repr

/-- `SELECT * FROM oncall.schedules WHERE team = %s ORDER BY created_at
DESC LIMIT 1` — the most recently created schedule of a team. -/
def latestSchedule (db : DB) (team : String) : Option Schedule :=
  (db.schedules.filter (fun s => s.team == team)).foldl
    (fun acc s =>
      match acc with
      | none => some s
      | some best => if best.created_at < s.created_at then some s else acc)
    none

/-- `SELECT ... FROM oncall.escalation_policies WHERE team = %s AND level
= %s` (`fetchone`). -/
def lookupPolicy (db : DB) (team : String) (level : Nat) : Option PolicyLevel :=
  (db.policies.filter (fun p => p.team == team && p.level == level)).head?

def lookupPolicyTarget (db : DB) (team : String) (level : Nat) : Option String :=
  (lookupPolicy db team level).map (fun p => p.notify_target)

/-- `UPDATE oncall.escalation_timers SET is_active = FALSE WHERE
incident_id = %s AND is_active = TRUE`. -/
def deactivateForIncident (ts : List Timer) (incident : String) : List Timer :=
  ts.map (fun t =>
    if t.incident_id == incident && t.is_active then { t with is_active := false } else t)

/-- `UPDATE oncall.escalation_timers SET is_active = FALSE WHERE id = %s`. -/
def deactivateById (ts : List Timer) (i : Nat) : List Timer :=
  ts.map (fun t => if t.id == i then { t with is_active := false } else t)

/-- `_notify_engineer` (api.py:499-525): best-effort call to the
NotificationGateway; a failure is swallowed. -/
def notify_engineer (db : DB) (f : Faults) (engineer : String) : DB :=
  if f.notifyFails then db else { db with outbox := db.outbox ++ [engineer] }

/-- `_start_escalation_timer` (api.py:533-567): wait minutes come from the
policy level `(team, next_level)` when present, else the configured
default; a failed insert is logged and swallowed. -/
def start_escalation_timer (db : DB) (st : Settings) (f : Faults) (now : Int)
    (incident_id team : String) (next_level : Nat) (assigned_to : String) : DB :=
  let wait_minutes :=
    if f.policyLookupFails then st.DEFAULT_ESCALATION_MINUTES
    else
      match lookupPolicy db team next_level with
      | some p => p.wait_minutes
      | none => st.DEFAULT_ESCALATION_MINUTES
  let escalate_after := now + (wait_minutes : Int)
  if f.insertTimerFails then db
  else
    { db with
      timers := db.timers ++
        [⟨db.nextId, incident_id, team, next_level, assigned_to, escalate_after, true⟩]
      nextId := db.nextId + 1 }

/-- Body of `POST /escalate` (`app.models.EscalateRequest`). -/
structure EscalateRequest where
  incident_id : String
  team : Option String
  reason : Option String
  level : Option Nat
deriving DecidableEq, Repr

/-- `if not team: team = "platform"` — Python truthiness: `None` and the
empty string both fall back to the default team. -/
def effectiveTeam (t : Option String) : String :=
  match t with
  | some s => if s = "" then "platform" else s
  | none => "platform"

/-- `level = body.level or 1`. -/
def effectiveLevel (l : Option Nat) : Nat :=
  match l with
  | some n => if n = 0 then 1 else n
  | none => 1

/-- `reason = body.reason or "No acknowledgment within escalation window"`. -/
def effectiveReason (r : Option String) : String :=
  match r with
  | some s => if s = "" then "No acknowledgment within escalation window" else s
  | none => "No acknowledgment within escalation window"

/-- Manual escalation target (api.py:357-365): level 1 with a secondary →
secondary; level ≥ 2 → configured manager address; otherwise manager. -/
def manualTargetTo (level : Nat) (se : Option Engineer) (st : Settings) : String :=
  if level == 1 && se.isSome then
    match se with
    | some sec => sec.email
    | none => ""
  else if 2 ≤ level then st.MANAGER_EMAIL
  else st.MANAGER_EMAIL

/-- Manual escalation from-engineer (api.py:354-362): primary, except at
level ≥ 2 where the secondary (if any) becomes the from-engineer. -/
def manualFromEngineer (level : Nat) (pe : Engineer) (se : Option Engineer) : String :=
  if level == 1 && se.isSome then pe.email
  else if 2 ≤ level then
    match se with
    | some sec => sec.email
    | none => pe.email
  else pe.email

/-- `POST /escalate` = `escalate_incident` (api.py:317-435).  `now` is the
record timestamp, `nowTimer` the (slightly later) clock reading inside
`_start_escalation_timer`. -/
def escalate_incident (db : DB) (st : Settings) (env : TimeEnv) (f : Faults)
    (now nowTimer : Int) (body : EscalateRequest) : Except ApiError EscRecord × DB :=
  let team := effectiveTeam body.team
  let level := effectiveLevel body.level
  match latestSchedule db team with
  | none => (.error (.notFound ("No schedule found for team " ++ team)), db)
  | some schedule =>
    match compute_current_oncall schedule env with
    | (none, _) => (.error (.notFound ("No engineers configured for team " ++ team)), db)
    | (some primary_eng, secondary_eng) =>
      let from_engineer := manualFromEngineer level primary_eng secondary_eng
      let to_engineer := manualTargetTo level secondary_eng st
      if to_engineer = "" then
        (.error (.unprocessable
          ("No secondary on-call for team " ++ team ++ " -- cannot escalate")), db)
      else if f.insertEscalationFails then
        (.error (.serverError "Failed to record escalation"), db)
      else
        let rcd : EscRecord :=
          ⟨db.nextId, body.incident_id, from_engineer, to_engineer, level,
            effectiveReason body.reason, now⟩
        let db1 := { db with escalations := db.escalations ++ [rcd], nextId := db.nextId + 1 }
        let db2 :=
          if f.deactivateIncidentTimersFails then db1
          else { db1 with timers := deactivateForIncident db1.timers body.incident_id }
        let db3 := start_escalation_timer db2 st f nowTimer body.incident_id team
          (level + 1) to_engineer
        let db4 := notify_engineer db3 f to_engineer
        (.ok rcd, db4)

/-- Body of `POST /timers/start`. -/
structure TimerStartRequest where
  incident_id : String
  team : String
  assigned_to : String
deriving DecidableEq, Repr

/-- `POST /timers/start` = `start_timer` (api.py:958-1021): inserts a new
active level-1 timer for the incident (unconditionally). -/
def start_timer (db : DB) (st : Settings) (f : Faults) (now : Int)
    (body : TimerStartRequest) : Except ApiError Timer × DB :=
  let wait_minutes :=
    if f.policyLookupFails then st.DEFAULT_ESCALATION_MINUTES
    else
      match lookupPolicy db body.team 1 with
      | some p => p.wait_minutes
      | none => st.DEFAULT_ESCALATION_MINUTES
  let escalate_after := now + (wait_minutes : Int)
  if f.insertTimerFails then (.error (.serverError "Failed to start escalation timer"), db)
  else
    let tm : Timer :=
      ⟨db.nextId, body.incident_id, body.team, 1, body.assigned_to, escalate_after, true⟩
    (.ok tm, { db with timers := db.timers ++ [tm], nextId := db.nextId + 1 })

/-- `POST /timers/cancel` = `cancel_timer` (api.py:1029-1059): deactivates
every active timer of the incident, returning how many were cancelled. -/
def cancel_timer (db : DB) (incident_id : String) : Nat × DB :=
  let cancelled :=
    (db.timers.filter (fun t => t.incident_id == incident_id && t.is_active)).length
  (cancelled, { db with timers := deactivateForIncident db.timers incident_id })

/-- The incident statuses on which the reconciler deactivates the timer
instead of escalating (api.py:743-749). -/
def handledStatuses : List String :=
  ["acknowledged", "in_progress", "resolved", "closed", "mitigated"]

/-- `incident_status in (...)`: a failed collaborator call leaves
`incident_status = None`, which is not in the tuple. -/
def isHandledStatus (status : Option String) : Bool :=
  match status with
  | some s => handledStatuses.contains s
  | none => false

/-- Reconciler next-target resolution (api.py:807-818), given the policy
row's `notify_target` (if any) and the current secondary. -/
def reconcilerTargetFromPolicy (policyTarget : Option String) (se : Option Engineer)
    (current_level : Nat) (st : Settings) : String :=
  match policyTarget with
  | some target =>
    if target == "secondary" && se.isSome then
      match se with
      | some sec => sec.email
      | none => ""
    else if target = "manager" then st.MANAGER_EMAIL
    else target
  | none =>
    match se with
    | some sec => if current_level = 1 then sec.email else st.MANAGER_EMAIL
    | none => st.MANAGER_EMAIL

/-- Reconciler next-target resolution including the policy lookup by
`(team, current_level)`. -/
def reconcilerTarget (db : DB) (team : String) (current_level : Nat)
    (se : Option Engineer) (st : Settings) : String :=
  reconcilerTargetFromPolicy (lookupPolicyTarget db team current_level) se current_level st

/-- One entry of the `details` list returned by `POST /check-escalations`. -/
inductive Detail where
  | skipped (incident_id : String) (reason : String)
  | escalated (incident_id : String) (level : Nat) (fromE toE : String)
deriving DecidableEq, Repr

/-- `max_level = settings.ESCALATION_LOOP_COUNT + 1` (api.py:855). -/
def maxLevel (st : Settings) : Nat := st.ESCALATION_LOOP_COUNT + 1

/-- The body of the per-timer loop of `check_escalations` (api.py:723-877):
one expired active timer is either skipped (incident already handled, or
no schedule) or escalated, with the next-level timer created only below
the loop bound.  `status` is the incident collaborator's answer (`none`
for a failed call or a non-200 response). -/
def processTimer (db : DB) (st : Settings) (env : TimeEnv) (f : Faults) (now : Int)
    (status : Option String) (t : Timer) : DB × List Detail :=
  if isHandledStatus status then
    let db1 :=
      if f.deactivateTimerFails then db
      else { db with timers := deactivateById db.timers t.id }
    (db1, [Detail.skipped t.incident_id ("Incident already " ++ status.getD "")])
  else
    match latestSchedule db t.team with
    | none => (db, [Detail.skipped t.incident_id "No schedule found"])
    | some schedule =>
      let secondary_eng := (compute_current_oncall schedule env).2
      let from_engineer := t.assigned_to
      let to_engineer := reconcilerTargetFromPolicy
        (if f.policyLookupFails then none else lookupPolicyTarget db t.team t.current_level)
        secondary_eng t.current_level st
      if f.insertEscalationFails then (db, [])
      else
        let rcd : EscRecord :=
          ⟨db.nextId, t.incident_id, from_engineer, to_engineer, t.current_level,
            "Auto-escalation: no acknowledgment within escalation window", now⟩
        let db1 := { db with escalations := db.escalations ++ [rcd], nextId := db.nextId + 1 }
        let db2 :=
          if f.deactivateTimerFails then db1
          else { db1 with timers := deactivateById db1.timers t.id }
        let db3 :=
          if t.current_level < maxLevel st then
            start_escalation_timer db2 st f now t.incident_id t.team
              (t.current_level + 1) to_engineer
          else db2
        let db4 := notify_engineer db3 f to_engineer
        (db4, [Detail.escalated t.incident_id t.current_level from_engineer to_engineer])

/-- Insertion step of the `ORDER BY escalate_after` sort. -/
def insertByFire (t : Timer) : List Timer → List Timer
  | [] => [t]
  | u :: us =>
    if t.escalate_after ≤ u.escalate_after then t :: u :: us else u :: insertByFire t us

/-- Sort by fire time, earliest first. -/
def sortByFire : List Timer → List Timer
  | [] => []
  | t :: ts => insertByFire t (sortByFire ts)

/-- `SELECT ... WHERE is_active = TRUE AND escalate_after <= %s ORDER BY
escalate_after` (api.py:707-716). -/
def expiredTimers (db : DB) (now : Int) : List Timer :=
  sortByFire (db.timers.filter (fun t => t.is_active && decide (t.escalate_after ≤ now)))

/-- The `for timer in expired_timers` loop. -/
def runTimers (st : Settings) (env : TimeEnv) (f : Faults)
    (statusOf : String → Option String) (now : Int) :
    DB → List Timer → DB × List Detail
  | db, [] => (db, [])
  | db, t :: rest =>
    let step := processTimer db st env f now (statusOf t.incident_id) t
    let tail := runTimers st env f statusOf now step.1 rest
    (tail.1, step.2 ++ tail.2)

/-- `POST /check-escalations` = `check_escalations` (api.py:692-883): one
reconciler pass.  `statusOf` is the incident collaborator. -/
def check_escalations (db : DB) (st : Settings) (env : TimeEnv) (f : Faults)
    (statusOf : String → Option String) (now : Int) : DB × List Detail :=
  runTimers st env f statusOf now db (expiredTimers db now)

/-- Number of active timers of an incident. -/
def activeFor (ts : List Timer) (incident : String) : Nat :=
  ts.countP (fun t => t.incident_id == incident && t.is_active)

/-- The §3 invariant: at most one active escalation timer per incident. -/
def atMostOneActive (db : DB) : Prop :=
  ∀ incident, activeFor db.timers incident ≤ 1

/-! ### Concrete instances used by witnesses -/

def engA : Engineer := ⟨"alice", "alice@example.com", true⟩
def engB : Engineer := ⟨"bob", "bob@example.com", false⟩

/-- The spec §8 scenario schedule: team platform, engineers [A, B],
weekly cadence, start day 0 (2026-01-01), handoff 9, UTC. -/
def schedW : Schedule :=
  { team := "platform", rotation_type := "weekly", start_date := 0,
    engineers := [engA, engB], escalation_minutes := 5,
    handoff_hour := some 9, timezone := some "UTC", created_at := 0 }

/-- A clock reading: day 7 (2026-01-08), 12:00, in every zone. -/
def envW : TimeEnv :=
  { validTz := fun z => z == "UTC", localDate := fun _ => 7, localHour := fun _ => 12 }

/-! ### C1 — rotation index formula -/

/-- Claim C1: for a schedule with a non-empty engineer list of size `n`,
the effective date is the local day when the local hour is at least the
handoff hour and the previous day when it is strictly less; with
`delta = max 0 (effective date - start date)` in days, the on-call index
is `delta % n` for daily cadence and `delta / 7 % n` for weekly cadence;
the primary is the engineer at that index and the secondary the engineer
at `(index + 1) % n`, or `none` when `n = 1`. -/
theorem rotation_index_formula (s : Schedule) (env : TimeEnv) (h : s.engineers ≠ [])
    (n : Nat) (hn : n = s.engineers.length)
    (eff : Int)
    (heff : eff = if s.handoff_hour.getD 9 ≤ env.localHour (resolvedTz s env)
                  then env.localDate (resolvedTz s env)
                  else env.localDate (resolvedTz s env) - 1)
    (delta : Nat) (hdelta : delta = (max 0 (eff - s.start_date)).toNat) :
    (s.rotation_type = "daily" →
      compute_current_oncall s env =
        (some (s.engineers.getD (delta % n) dummyEngineer),
         if n = 1 then none
         else some (s.engineers.getD ((delta % n + 1) % n) dummyEngineer)))
  ∧ (s.rotation_type = "weekly" →
      compute_current_oncall s env =
        (some (s.engineers.getD (delta / 7 % n) dummyEngineer),
         if n = 1 then none
         else some (s.engineers.getD ((delta / 7 % n + 1) % n) dummyEngineer))) := by
  subst hn hdelta
  have hlen : 0 < s.engineers.length := List.length_pos.mpr h
  have hdd :
      ((if env.localHour (resolvedTz s env) < s.handoff_hour.getD 9
        then env.localDate (resolvedTz s env) - 1
        else env.localDate (resolvedTz s env)) - s.start_date).toNat =
      (max 0 (eff - s.start_date)).toNat := by
    subst heff
    by_cases hlt : env.localHour (resolvedTz s env) < s.handoff_hour.getD 9
    · rw [if_pos hlt, if_neg (by omega)]
      omega
    · rw [if_neg hlt, if_pos (by omega)]
      omega
  have hsec : ∀ i : Nat,
      (if 1 < s.engineers.length
        then some (s.engineers.getD ((i + 1) % s.engineers.length) dummyEngineer)
        else none) =
      (if s.engineers.length = 1 then none
        else some (s.engineers.getD ((i + 1) % s.engineers.length) dummyEngineer)) := by
    intro i
    by_cases h1 : s.engineers.length = 1
    · simp [h1]
    · have : 1 < s.engineers.length := by omega
      simp [this, h1]
  constructor
  · intro hd
    unfold compute_current_oncall
    rw [if_neg h]
    simp only [hd, if_pos rfl, hdd]
    exact congrArg _ (hsec _)
  · intro hw
    unfold compute_current_oncall
    rw [if_neg h]
    have : ¬ s.rotation_type = "daily" := by rw [hw]; decide
    simp only [if_neg this, hdd]
    exact congrArg _ (hsec _)

/-- Witness for C1, instantiating the spec §8 scenario: engineers [A, B],
weekly, start 2026-01-01, now 2026-01-08 12:00 UTC ⇒ primary B,
secondary A. -/
theorem rotation_index_formula_witness :
    compute_current_oncall schedW envW = (some engB, some engA) := by
  have h := rotation_index_formula schedW envW (by decide) 2 (by decide)
    7 (by decide) 7 (by decide)
  exact (h.2 rfl).trans (by decide)

/-! ### C8 — invalid time zone falls back to UTC -/

/-- Claim C8: when the schedule's zone name does not resolve, the on-call
computation never fails: it behaves exactly as if the schedule's zone
were UTC. -/
theorem invalid_timezone_falls_back_to_utc (s : Schedule) (env : TimeEnv)
    (h : env.validTz (requestedTz s) = false) :
    compute_current_oncall s env =
      compute_current_oncall { s with timezone := some "UTC" } env := by
  have h1 : resolvedTz s env = "UTC" := by simp [resolvedTz, h]
  have h2 : resolvedTz { s with timezone := some "UTC" } env = "UTC" := by
    simp [resolvedTz, requestedTz]
  unfold compute_current_oncall
  simp only [h1, h2]

/-- Witness for C8: a schedule with the unknown zone "Mars/Olympus". -/
theorem invalid_timezone_falls_back_to_utc_witness :
    compute_current_oncall { schedW with timezone := some "Mars/Olympus" } envW =
      compute_current_oncall
        { { schedW with timezone := some "Mars/Olympus" } with timezone := some "UTC" } envW :=
  invalid_timezone_falls_back_to_utc { schedW with timezone := some "Mars/Olympus" } envW
    (by decide)

/-! ### C9 — the rotation calculator is a pure function of (schedule, now) -/

/-- Claim C9: `compute_current_oncall` is a function of the schedule and
the clock reading only — it performs no writes (it returns a plain value
and no state), and two evaluations whose clocks agree on the schedule's
resolved zone (validity of the requested zone, local date and local hour
there) return equal results, whatever else differs between the
environments. -/
theorem oncall_deterministic (s : Schedule) (e1 e2 : TimeEnv)
    (hv : e2.validTz (requestedTz s) = e1.validTz (requestedTz s))
    (hd : e2.localDate (resolvedTz s e1) = e1.localDate (resolvedTz s e1))
    (hh : e2.localHour (resolvedTz s e1) = e1.localHour (resolvedTz s e1)) :
    compute_current_oncall s e2 = compute_current_oncall s e1 := by
  have hz : resolvedTz s e2 = resolvedTz s e1 := by
    unfold resolvedTz
    rw [hv]
  unfold compute_current_oncall
  simp only [hz, hd, hh]

/-- A second clock that differs from `envW` everywhere except on the
resolved zone "UTC". -/
def envW2 : TimeEnv :=
  { validTz := fun z => z == "UTC",
    localDate := fun z => if z == "UTC" then 7 else 999,
    localHour := fun z => if z == "UTC" then 12 else 3 }

/-- Witness for C9: `envW` and `envW2` agree only on zone "UTC", and the
results coincide. -/
theorem oncall_deterministic_witness :
    compute_current_oncall schedW envW2 = compute_current_oncall schedW envW :=
  oncall_deterministic schedW envW envW2 (by decide) (by decide) (by decide)

/-! ### Helper lemmas about the target-resolution functions -/

lemma manualTargetTo_one_some (sec : Engineer) (st : Settings) :
    manualTargetTo 1 (some sec) st = sec.email := by
  simp [manualTargetTo]

lemma manualTargetTo_one_none (st : Settings) :
    manualTargetTo 1 none st = st.MANAGER_EMAIL := by
  simp [manualTargetTo]

lemma manualTargetTo_ge_two (l : Nat) (hl : 2 ≤ l) (se : Option Engineer) (st : Settings) :
    manualTargetTo l se st = st.MANAGER_EMAIL := by
  have hcond : ¬ ((l == 1 && se.isSome) = true) := by
    simp only [Bool.and_eq_true, beq_iff_eq]
    intro hcon
    omega
  unfold manualTargetTo
  rw [if_neg hcond, if_pos hl]

lemma manualFromEngineer_ge_two (l : Nat) (hl : 2 ≤ l) (pe : Engineer)
    (se : Option Engineer) :
    manualFromEngineer l pe se = se.elim pe.email (fun sec => sec.email) := by
  have hcond : ¬ ((l == 1 && se.isSome) = true) := by
    simp only [Bool.and_eq_true, beq_iff_eq]
    intro hcon
    omega
  unfold manualFromEngineer
  rw [if_neg hcond, if_pos hl]
  cases se <;> rfl

lemma escalations_notify (db : DB) (f : Faults) (e : String) :
    (notify_engineer db f e).escalations = db.escalations := by
  unfold notify_engineer
  split <;> rfl

lemma escalations_start_timer (db : DB) (st : Settings) (f : Faults) (now : Int)
    (i t : String) (l : Nat) (a : String) :
    (start_escalation_timer db st f now i t l a).escalations = db.escalations := by
  unfold start_escalation_timer
  cases hf : f.insertTimerFails <;> simp [hf]

/-! ### C2 — manual escalation contract -/

/-- Claim C2: manual escalation against a team whose latest schedule
exists and yields a primary: the target is the secondary at level 1 when
one exists, the manager address at level ≥ 2 (the from-engineer becoming
the secondary, or the primary without one), and the manager address for a
single-engineer team at level 1; an empty target is rejected as
unprocessable; on success the escalation record at the requested level is
persisted and a new active timer at level + 1 is created whose fire time
is now plus the policy wait minutes of `(team, level + 1)` when that
policy level exists, else the configured default wait. -/
theorem manual_escalation_contract (db : DB) (st : Settings) (env : TimeEnv)
    (now nowT : Int) (body : EscalateRequest) (sched : Schedule)
    (pe : Engineer) (se : Option Engineer)
    (hs : latestSchedule db (effectiveTeam body.team) = some sched)
    (hc : compute_current_oncall sched env = (some pe, se)) :
    (effectiveLevel body.level = 1 → ∀ sec, se = some sec →
       manualTargetTo (effectiveLevel body.level) se st = sec.email)
  ∧ (2 ≤ effectiveLevel body.level →
       manualTargetTo (effectiveLevel body.level) se st = st.MANAGER_EMAIL
       ∧ manualFromEngineer (effectiveLevel body.level) pe se =
           se.elim pe.email (fun sec => sec.email))
  ∧ (effectiveLevel body.level = 1 → se = none →
       manualTargetTo (effectiveLevel body.level) se st = st.MANAGER_EMAIL)
  ∧ (manualTargetTo (effectiveLevel body.level) se st = "" →
       escalate_incident db st env noFaults now nowT body =
         (.error (.unprocessable
            ("No secondary on-call for team " ++ effectiveTeam body.team ++
              " -- cannot escalate")), db))
  ∧ (manualTargetTo (effectiveLevel body.level) se st ≠ "" →
       ∃ db2 : DB,
         escalate_incident db st env noFaults now nowT body =
           (.ok ⟨db.nextId, body.incident_id,
                 manualFromEngineer (effectiveLevel body.level) pe se,
                 manualTargetTo (effectiveLevel body.level) se st,
                 effectiveLevel body.level, effectiveReason body.reason, now⟩, db2)
         ∧ db2.escalations = db.escalations ++
             [⟨db.nextId, body.incident_id,
               manualFromEngineer (effectiveLevel body.level) pe se,
               manualTargetTo (effectiveLevel body.level) se st,
               effectiveLevel body.level, effectiveReason body.reason, now⟩]
         ∧ db2.timers = deactivateForIncident db.timers body.incident_id ++
             [⟨db.nextId + 1, body.incident_id, effectiveTeam body.team,
               effectiveLevel body.level + 1,
               manualTargetTo (effectiveLevel body.level) se st,
               nowT + ((match lookupPolicy db (effectiveTeam body.team)
                          (effectiveLevel body.level + 1) with
                        | some p => p.wait_minutes
                        | none => st.DEFAULT_ESCALATION_MINUTES) : Int),
               true⟩]) := by
  refine ⟨?_, ?_, ?_, ?_, ?_⟩
  · intro h1 sec hse
    rw [h1, hse]
    exact manualTargetTo_one_some sec st
  · intro h2
    exact ⟨manualTargetTo_ge_two _ h2 se st, manualFromEngineer_ge_two _ h2 pe se⟩
  · intro h1 hse
    rw [h1, hse]
    exact manualTargetTo_one_none st
  · intro htgt
    simp only [escalate_incident, hs, hc]
    rw [if_pos htgt]
  · intro htgt
    simp only [escalate_incident, hs, hc]
    rw [if_neg htgt]
    simp only [noFaults, Bool.false_eq_true, if_false,
      notify_engineer, start_escalation_timer, lookupPolicy]
    refine ⟨_, rfl, by simp, ?_⟩
    simp only [lookupPolicy]
    simp
    split <;> rfl

/-- Escalation request of the spec scenario: incident inc-1, team and
level omitted. -/
def reqW : EscalateRequest := ⟨"inc-1", none, none, none⟩

/-- A schedule store whose only schedule is `schedW`, with a level-2
policy of 15 wait minutes. -/
def dbW : DB := { emptyDB with schedules := [schedW], policies := [⟨"platform", 2, 15, "manager"⟩] }

/-- Witness for C2: the spec scenario — level omitted ⇒ record at level 1,
to = secondary (alice), new level-2 timer at now + 15 (the level-2 policy
wait). -/
theorem manual_escalation_contract_witness :
    ∃ db2 : DB,
      escalate_incident dbW defaultSettings envW noFaults 100 100 reqW =
        (.ok ⟨0, "inc-1", "bob@example.com", "alice@example.com", 1,
              "No acknowledgment within escalation window", 100⟩, db2)
      ∧ db2.timers = [⟨1, "inc-1", "platform", 2, "alice@example.com", 115, true⟩] := by
  have h := (manual_escalation_contract dbW defaultSettings envW 100 100 reqW schedW
      engB (some engA) (by decide) (by decide)).2.2.2.2 (by decide)
  obtain ⟨db2, h1, -, h3⟩ := h
  refine ⟨db2, h1, ?_⟩
  rw [h3]
  decide

/-! ### C6 — reconciler target vs manual target -/

/-- A store with a level-1 policy pointing at the literal address
vp@example.com. -/
def dbC6 : DB :=
  { emptyDB with schedules := [schedW], policies := [⟨"platform", 1, 10, "vp@example.com"⟩] }

/-- Counterexample to claim C6: with a level-1 policy whose
`notify_target` is the literal address vp@example.com, the reconciler
resolves that address while the manual §4.2 rules resolve the secondary;
the two disagree. -/
theorem reconciler_vs_manual_target_cex :
    reconcilerTarget dbC6 "platform" 1 (some engA) defaultSettings ≠
      manualTargetTo 1 (some engA) defaultSettings := by decide

/-- Claim C6 (amended): when no escalation-policy level exists for
`(team, current_level)`, the reconciler's fallback target resolution
(secondary at level 1, else the manager address) agrees with the manual
escalation target rules; a present policy row overrides them. -/
theorem reconciler_matches_manual_without_policy (db : DB) (team : String)
    (level : Nat) (se : Option Engineer) (st : Settings)
    (h : lookupPolicyTarget db team level = none) :
    reconcilerTarget db team level se st = manualTargetTo level se st := by
  unfold reconcilerTarget reconcilerTargetFromPolicy
  rw [h]
  cases se with
  | none => simp [manualTargetTo]
  | some sec =>
    by_cases hl : level = 1
    · subst hl
      simp [manualTargetTo]
    · simp [manualTargetTo, hl]

/-- Witness for amended C6: no policy in the store — both resolutions
give the secondary at level 1. -/
theorem reconciler_matches_manual_without_policy_witness :
    reconcilerTarget emptyDB "platform" 1 (some engA) defaultSettings =
      manualTargetTo 1 (some engA) defaultSettings :=
  reconciler_matches_manual_without_policy emptyDB "platform" 1 (some engA)
    defaultSettings (by decide)

/-! ### C7 — the escalation record is the commit point -/

/-- Claim C7: once the escalation-record insert succeeds, manual
escalation returns that record whatever happens to the notification call
and the non-critical writes (old-timer deactivation, new-timer creation);
if the record insert itself fails, the whole operation aborts with a
server error and the store is left untouched (no timer deactivated or
created). -/
theorem escalation_record_is_commit_point (db : DB) (st : Settings) (env : TimeEnv)
    (now nowT : Int) (body : EscalateRequest) (sched : Schedule)
    (pe : Engineer) (se : Option Engineer) (f : Faults)
    (hs : latestSchedule db (effectiveTeam body.team) = some sched)
    (hc : compute_current_oncall sched env = (some pe, se))
    (htgt : manualTargetTo (effectiveLevel body.level) se st ≠ "") :
    (f.insertEscalationFails = false →
       (escalate_incident db st env f now nowT body).1 =
         (escalate_incident db st env noFaults now nowT body).1
       ∧ ∃ r db2, escalate_incident db st env f now nowT body = (.ok r, db2)
           ∧ r ∈ db2.escalations)
  ∧ (f.insertEscalationFails = true →
       escalate_incident db st env f now nowT body =
         (.error (.serverError "Failed to record escalation"), db)) := by
  constructor
  · intro hf
    simp only [escalate_incident, hs, hc]
    simp only [if_neg htgt]
    simp only [hf, noFaults, Bool.false_eq_true, if_false]
    refine ⟨by trivial, _, _, rfl, ?_⟩
    rw [escalations_notify, escalations_start_timer]
    split <;> simp
  · intro hf
    simp only [escalate_incident, hs, hc]
    simp only [if_neg htgt]
    simp only [hf, if_true]

/-- A fault pattern failing every non-critical write and the
notification, but not the record insert. -/
def faultyButRecord : Faults := ⟨true, true, false, true, true, true⟩

/-- A fault pattern failing the record insert. -/
def faultyRecord : Faults := ⟨false, false, true, false, false, false⟩

/-- Witness for C7: with every non-critical write failing the response is
the same as the fault-free one; with the record insert failing the
operation aborts and the store is untouched. -/
theorem escalation_record_is_commit_point_witness :
    ((escalate_incident dbW defaultSettings envW faultyButRecord 100 100 reqW).1 =
      (escalate_incident dbW defaultSettings envW noFaults 100 100 reqW).1)
  ∧ (escalate_incident dbW defaultSettings envW faultyRecord 100 100 reqW =
      (.error (.serverError "Failed to record escalation"), dbW)) := by
  have h1 := escalation_record_is_commit_point dbW defaultSettings envW 100 100 reqW
    schedW engB (some engA) faultyButRecord (by decide) (by decide) (by decide)
  have h2 := escalation_record_is_commit_point dbW defaultSettings envW 100 100 reqW
    schedW engB (some engA) faultyRecord (by decide) (by decide) (by decide)
  exact ⟨(h1.1 rfl).1, h2.2 rfl⟩

/-! ### C10 — omitted team defaults to "platform" -/

/-- Claim C10: a manual escalation request without a team does not fail
and does not consult the incident: it behaves exactly like a request for
the literal team "platform" (schedule lookup, target resolution and the
created timer all use that team). -/
theorem default_team_platform (db : DB) (st : Settings) (env : TimeEnv) (f : Faults)
    (now nowT : Int) (body : EscalateRequest) (h : body.team = none) :
    effectiveTeam body.team = "platform"
  ∧ escalate_incident db st env f now nowT body =
      escalate_incident db st env f now nowT { body with team := some "platform" } := by
  obtain ⟨inc, tm, rs, lv⟩ := body
  simp only at h
  subst h
  refine ⟨rfl, ?_⟩
  have e2 : effectiveTeam (some "platform") = "platform" := by decide
  show escalate_incident db st env f now nowT ⟨inc, none, rs, lv⟩ =
    escalate_incident db st env f now nowT ⟨inc, some "platform", rs, lv⟩
  unfold escalate_incident
  rw [e2]
  rfl

/-- Witness for C10: the scenario request (team omitted) behaves like the
explicit platform request. -/
theorem default_team_platform_witness :
    effectiveTeam reqW.team = "platform"
  ∧ escalate_incident dbW defaultSettings envW noFaults 100 100 reqW =
      escalate_incident dbW defaultSettings envW noFaults 100 100
        { reqW with team := some "platform" } :=
  default_team_platform dbW defaultSettings envW noFaults 100 100 reqW rfl

/-! ### C3 — handled incidents are skipped; unknown status fails open -/

/-- Claim C3 (amended): an expired timer whose incident reports a handled
status (acknowledged / in_progress / resolved / closed / mitigated) is
deactivated with a "skipped" detail and no escalation record; a failed
collaborator call or an unknown status makes the step behave exactly as a
failed call (fail-open towards escalating), and — provided the team has a
schedule — exactly one escalation record is then created. -/
theorem reconciler_skip_and_fail_open (db : DB) (st : Settings) (env : TimeEnv)
    (now : Int) (t : Timer) (status : Option String) :
    (∀ s, status = some s → isHandledStatus status = true →
       processTimer db st env noFaults now status t =
         ({ db with timers := deactivateById db.timers t.id },
          [Detail.skipped t.incident_id ("Incident already " ++ s)]))
  ∧ (isHandledStatus status = false →
       processTimer db st env noFaults now status t =
         processTimer db st env noFaults now none t)
  ∧ (isHandledStatus status = false →
       ∀ sched, latestSchedule db t.team = some sched →
         (processTimer db st env noFaults now status t).1.escalations.length =
           db.escalations.length + 1) := by
  refine ⟨?_, ?_, ?_⟩
  · intro s hs hhandled
    subst hs
    unfold processTimer
    rw [hhandled]
    rfl
  · intro hst
    unfold processTimer
    rw [hst]
    rfl
  · intro hst sched hsched
    simp only [processTimer, hst, Bool.false_eq_true, if_false, hsched]
    simp only [noFaults, Bool.false_eq_true, if_false, escalations_notify]
    split
    · rw [escalations_start_timer]
      simp
    · simp

/-- A timer for incident inc-1 of team platform (level 1, expired). -/
def timerT : Timer := ⟨50, "inc-1", "platform", 1, "bob@example.com", 0, true⟩

/-- `dbW` together with the expired timer `timerT`. -/
def dbT : DB := { dbW with timers := [timerT], nextId := 60 }

/-- Witness for C3: the three branches at concrete inputs — status
"resolved" skips and deactivates, status "wat" behaves like a failed
collaborator call, and a failed call escalates with exactly one new
record. -/
theorem reconciler_skip_and_fail_open_witness :
    (processTimer dbT defaultSettings envW noFaults 0 (some "resolved") timerT =
       ({ dbT with timers := deactivateById dbT.timers timerT.id },
        [Detail.skipped "inc-1" ("Incident already " ++ "resolved")]))
  ∧ (processTimer dbT defaultSettings envW noFaults 0 (some "wat") timerT =
       processTimer dbT defaultSettings envW noFaults 0 none timerT)
  ∧ (processTimer dbT defaultSettings envW noFaults 0 none timerT).1.escalations.length =
      dbT.escalations.length + 1 := by
  refine ⟨?_, ?_, ?_⟩
  · exact (reconciler_skip_and_fail_open dbT defaultSettings envW 0 timerT
      (some "resolved")).1 "resolved" rfl (by decide)
  · exact (reconciler_skip_and_fail_open dbT defaultSettings envW 0 timerT
      (some "wat")).2.1 (by decide)
  · exact (reconciler_skip_and_fail_open dbT defaultSettings envW 0 timerT
      none).2.2 rfl schedW (by decide)

/-- Counterexample to claim C3 as stated: an expired unacknowledged timer
whose team has no schedule is skipped with zero escalation records — the
fail-open path does not always create a record. -/
def timerNoSched : Timer := ⟨0, "inc-9", "ghost", 1, "a@example.com", 0, true⟩

def dbNoSched : DB := { emptyDB with timers := [timerNoSched], nextId := 1 }

theorem reconciler_fail_open_cex :
    (check_escalations dbNoSched defaultSettings envW noFaults (fun _ => none) 0).1.escalations = []
  ∧ (check_escalations dbNoSched defaultSettings envW noFaults (fun _ => none) 0).2 =
      [Detail.skipped "inc-9" "No schedule found"] := by decide

/-! ### C4 — the automatic ladder increments by one and stops at the bound -/

/-- Claim C4: an automatic escalation step on a timer at `current_level`
creates a next timer exactly at `current_level + 1`, and creates none
once `current_level ≥ max_level` (`ESCALATION_LOOP_COUNT + 1`), so the
automatic ladder increases by exactly one per step and terminates at the
bound. -/
theorem escalation_level_ladder (db : DB) (st : Settings) (env : TimeEnv)
    (now : Int) (t : Timer) (status : Option String) (sched : Schedule)
    (hst : isHandledStatus status = false)
    (hsched : latestSchedule db t.team = some sched) :
    (t.current_level < maxLevel st →
       ∃ tm : Timer,
         (processTimer db st env noFaults now status t).1.timers =
           deactivateById db.timers t.id ++ [tm]
         ∧ tm.current_level = t.current_level + 1 ∧ tm.is_active = true)
  ∧ (maxLevel st ≤ t.current_level →
       (processTimer db st env noFaults now status t).1.timers =
         deactivateById db.timers t.id) := by
  constructor
  · intro hlt
    simp only [processTimer, hst, Bool.false_eq_true, if_false, hsched]
    simp only [noFaults, Bool.false_eq_true, if_false]
    rw [if_pos hlt]
    simp only [notify_engineer, start_escalation_timer, noFaults,
      Bool.false_eq_true, if_false]
    exact ⟨_, rfl, rfl, rfl⟩
  · intro hge
    simp only [processTimer, hst, Bool.false_eq_true, if_false, hsched]
    simp only [noFaults, Bool.false_eq_true, if_false]
    rw [if_neg (by omega : ¬ t.current_level < maxLevel st)]
    simp [notify_engineer, noFaults]

/-- An expired timer already at level 3 = `maxLevel defaultSettings`. -/
def timerHigh : Timer := ⟨51, "inc-2", "platform", 3, "x@example.com", 0, true⟩

def dbT3 : DB := { dbW with timers := [timerHigh], nextId := 70 }

/-- Witness for C4: at level 1 a level-2 timer is created; at level 3 (the
bound, with `ESCALATION_LOOP_COUNT = 2`) no next timer is created. -/
theorem escalation_level_ladder_witness :
    (∃ tm : Timer,
       (processTimer dbT defaultSettings envW noFaults 0 none timerT).1.timers =
         deactivateById dbT.timers timerT.id ++ [tm]
       ∧ tm.current_level = timerT.current_level + 1 ∧ tm.is_active = true)
  ∧ (processTimer dbT3 defaultSettings envW noFaults 0 none timerHigh).1.timers =
      deactivateById dbT3.timers timerHigh.id := by
  constructor
  · exact (escalation_level_ladder dbT defaultSettings envW 0 timerT none schedW
      rfl (by decide)).1 (by decide)
  · exact (escalation_level_ladder dbT3 defaultSettings envW 0 timerHigh none schedW
      rfl (by decide)).2 (by decide)

/-! ### C5 — at most one active timer per incident: counting lemmas -/

lemma two_le_countP {α : Type} (p : α → Bool) {a b : α} {l : List α}
    (ha : a ∈ l) (hb : b ∈ l) (hne : a ≠ b)
    (hpa : p a = true) (hpb : p b = true) : 2 ≤ l.countP p := by
  induction l with
  | nil => cases ha
  | cons x xs ih =>
    rcases List.mem_cons.1 ha with hax | hax
    · rcases List.mem_cons.1 hb with hbx | hbx
      · exact absurd (hax.trans hbx.symm) hne
      · subst hax
        rw [List.countP_cons_of_pos _ _ hpa]
        have hpos : 0 < xs.countP p := List.countP_pos_iff.2 ⟨b, hbx, hpb⟩
        omega
    · rcases List.mem_cons.1 hb with hbx | hbx
      · subst hbx
        rw [List.countP_cons_of_pos _ _ hpb]
        have hpos : 0 < xs.countP p := List.countP_pos_iff.2 ⟨a, hax, hpa⟩
        omega
      · have h2 := ih hax hbx
        rw [List.countP_cons]
        omega

/-- Under the invariant, an active timer is the only active entry of its
incident: every active timer of the same incident carries its id. -/
lemma sole_active_of_inv {db : DB} (hinv : atMostOneActive db) {t : Timer}
    (ht : t ∈ db.timers) (hact : t.is_active = true) :
    ∀ u ∈ db.timers, u.incident_id = t.incident_id → u.is_active = true → u.id = t.id := by
  intro u hu hinc hua
  by_cases heq : u = t
  · rw [heq]
  · exfalso
    have h2 : 2 ≤ activeFor db.timers t.incident_id := by
      unfold activeFor
      refine two_le_countP _ hu ht heq ?_ ?_
      · simp [hinc, hua]
      · simp [hact]
    have h1 := hinv t.incident_id
    omega

lemma activeFor_deactivateById_le (ts : List Timer) (i : Nat) (inc : String) :
    activeFor (deactivateById ts i) inc ≤ activeFor ts inc := by
  unfold activeFor deactivateById
  rw [List.countP_map]
  apply List.countP_mono_left
  intro a _ hpa
  by_cases hid : a.id = i
  · simp [hid] at hpa
  · simpa [hid] using hpa

lemma activeFor_deactivateById_zero (ts : List Timer) (tid : Nat) (inc : String)
    (h : ∀ u ∈ ts, u.incident_id = inc → u.is_active = true → u.id = tid) :
    activeFor (deactivateById ts tid) inc = 0 := by
  unfold activeFor deactivateById
  rw [List.countP_map, List.countP_eq_zero]
  intro a ha
  by_cases hid : a.id = tid
  · simp [hid]
  · simp only [Function.comp_apply, beq_iff_eq, hid, if_false, Bool.and_eq_true]
    rintro ⟨h1, h2⟩
    exact hid (h a ha h1 h2)

lemma activeFor_deactivateForIncident_self (ts : List Timer) (inc : String) :
    activeFor (deactivateForIncident ts inc) inc = 0 := by
  unfold activeFor deactivateForIncident
  rw [List.countP_map, List.countP_eq_zero]
  intro a ha
  cases hact : a.is_active <;> by_cases h1 : a.incident_id = inc <;> simp [hact, h1]

lemma activeFor_deactivateForIncident_other (ts : List Timer) (inc j : String)
    (hj : j ≠ inc) :
    activeFor (deactivateForIncident ts inc) j = activeFor ts j := by
  unfold activeFor deactivateForIncident
  rw [List.countP_map]
  apply List.countP_congr
  intro a _
  by_cases hc : (a.incident_id == inc && a.is_active) = true
  · have hcc := hc
    rw [Bool.and_eq_true, beq_iff_eq] at hcc
    simp only [Function.comp_apply, hc, if_true]
    constructor
    · rw [Bool.and_eq_true, beq_iff_eq]
      rintro ⟨h1, -⟩
      exact absurd (h1.symm.trans hcc.1) hj
    · rw [Bool.and_eq_true, beq_iff_eq]
      rintro ⟨h1, h2⟩
      exact absurd (h1.symm.trans hcc.1) hj
  · simp only [Function.comp_apply, hc, if_false]
    exact Iff.rfl

lemma activeFor_append (l1 l2 : List Timer) (j : String) :
    activeFor (l1 ++ l2) j = activeFor l1 j + activeFor l2 j := by
  unfold activeFor
  rw [List.countP_append]

lemma activeFor_single_le (tm : Timer) (j : String) : activeFor [tm] j ≤ 1 := by
  unfold activeFor
  rw [List.countP_cons]
  simp only [List.countP_nil]
  split <;> omega

lemma activeFor_single_other (tm : Timer) (inc j : String)
    (htm : tm.incident_id = inc) (hj : j ≠ inc) : activeFor [tm] j = 0 := by
  unfold activeFor
  rw [List.countP_eq_zero]
  intro a ha
  rw [List.mem_singleton] at ha
  subst ha
  intro hcon
  rw [Bool.and_eq_true, beq_iff_eq] at hcon
  exact hj (hcon.1.symm.trans htm)

lemma mem_active_deactivateById {ts : List Timer} {i : Nat} {u : Timer}
    (hu : u ∈ deactivateById ts i) (ha : u.is_active = true) : u ∈ ts := by
  unfold deactivateById at hu
  obtain ⟨v, hv, hgv⟩ := List.mem_map.1 hu
  by_cases hid : v.id = i
  · exfalso
    rw [if_pos (show (v.id == i) = true by simpa using hid)] at hgv
    rw [← hgv] at ha
    simp at ha
  · rw [if_neg (show ¬ (v.id == i) = true by simpa using hid)] at hgv
    exact hgv ▸ hv

lemma timers_notify (db : DB) (f : Faults) (e : String) :
    (notify_engineer db f e).timers = db.timers := by
  unfold notify_engineer
  split <;> rfl

/-- Shape of the timer table after `_start_escalation_timer` without
faults: one new active timer for the incident is appended. -/
lemma start_escalation_timer_timers (db : DB) (st : Settings) (now : Int)
    (i t : String) (l : Nat) (a : String) :
    ∃ tm : Timer, (start_escalation_timer db st noFaults now i t l a).timers =
      db.timers ++ [tm] ∧ tm.incident_id = i ∧ tm.is_active = true := by
  refine ⟨_, rfl, ?_, ?_⟩ <;> rfl

/-- The three possible effects of `escalate_incident` (without faults) on
the timer table: untouched (error paths), or all the incident's timers
deactivated and one new timer for the incident appended. -/
lemma escalate_incident_timers (db : DB) (st : Settings) (env : TimeEnv)
    (now nowT : Int) (body : EscalateRequest) :
    (escalate_incident db st env noFaults now nowT body).2 = db
    ∨ ∃ tm : Timer, tm.incident_id = body.incident_id ∧
        (escalate_incident db st env noFaults now nowT body).2.timers =
          deactivateForIncident db.timers body.incident_id ++ [tm] := by
  cases hls : latestSchedule db (effectiveTeam body.team) with
  | none =>
    left
    simp only [escalate_incident, hls]
  | some sched =>
    cases hco : compute_current_oncall sched env with
    | mk pe se =>
      cases pe with
      | none =>
        left
        simp only [escalate_incident, hls, hco]
      | some p =>
        by_cases hte : manualTargetTo (effectiveLevel body.level) se st = ""
        · left
          simp only [escalate_incident, hls, hco]
          rw [if_pos hte]
        · right
          simp only [escalate_incident, hls, hco]
          rw [if_neg hte]
          refine ⟨_, ?_, rfl⟩
          rfl

/-- The three possible effects of one reconciler step (without faults) on
the timer table: untouched (no schedule), the fired timer deactivated, or
the fired timer deactivated with one new timer of the same incident
appended. -/
lemma processTimer_timers (db : DB) (st : Settings) (env : TimeEnv) (now : Int)
    (status : Option String) (t : Timer) :
    (processTimer db st env noFaults now status t).1.timers = db.timers
    ∨ (processTimer db st env noFaults now status t).1.timers =
        deactivateById db.timers t.id
    ∨ ∃ tm : Timer, tm.incident_id = t.incident_id ∧
        (processTimer db st env noFaults now status t).1.timers =
          deactivateById db.timers t.id ++ [tm] := by
  cases hh : isHandledStatus status with
  | false =>
    cases hls : latestSchedule db t.team with
    | none =>
      left
      simp only [processTimer, hh, Bool.false_eq_true, if_false, hls]
    | some sched =>
      by_cases hlt : t.current_level < maxLevel st
      · right; right
        simp only [processTimer, hh, Bool.false_eq_true, if_false, hls]
        rw [if_pos hlt]
        refine ⟨_, ?_, rfl⟩
        rfl
      · right; left
        simp only [processTimer, hh, Bool.false_eq_true, if_false, hls]
        rw [if_neg hlt]
        rfl
  | true =>
    right; left
    unfold processTimer
    rw [hh]
    rfl

/-- One reconciler step preserves the invariant when the processed timer
is its incident's sole active entry, and every timer active afterwards is
either an old timer or belongs to the processed incident. -/
lemma processTimer_preserves (db : DB) (st : Settings) (env : TimeEnv) (now : Int)
    (status : Option String) (t : Timer)
    (hinv : atMostOneActive db)
    (hsole : ∀ u ∈ db.timers, u.incident_id = t.incident_id → u.is_active = true →
      u.id = t.id) :
    atMostOneActive (processTimer db st env noFaults now status t).1
    ∧ ∀ u ∈ (processTimer db st env noFaults now status t).1.timers,
        u.is_active = true → u ∈ db.timers ∨ u.incident_id = t.incident_id := by
  rcases processTimer_timers db st env now status t with h | h | ⟨tm, htm, h⟩
  · constructor
    · intro j; rw [h]; exact hinv j
    · intro u hu _
      rw [h] at hu
      exact Or.inl hu
  · constructor
    · intro j
      rw [h]
      exact le_trans (activeFor_deactivateById_le _ _ _) (hinv j)
    · intro u hu hua
      rw [h] at hu
      exact Or.inl (mem_active_deactivateById hu hua)
  · constructor
    · intro j
      rw [h, activeFor_append]
      by_cases hj : j = t.incident_id
      · subst hj
        rw [activeFor_deactivateById_zero _ _ _ hsole]
        have h1 := activeFor_single_le tm t.incident_id
        omega
      · rw [activeFor_single_other tm _ _ htm hj]
        have h1 := le_trans (activeFor_deactivateById_le db.timers t.id j) (hinv j)
        omega
    · intro u hu hua
      rw [h] at hu
      rcases List.mem_append.1 hu with hu1 | hu2
      · exact Or.inl (mem_active_deactivateById hu1 hua)
      · rw [List.mem_singleton] at hu2
        subst hu2
        exact Or.inr htm

/-- Folding reconciler steps over timers with pairwise distinct incidents,
each step's timer being its incident's sole active entry, preserves the
invariant. -/
lemma runTimers_preserves (st : Settings) (env : TimeEnv)
    (statusOf : String → Option String) (now : Int) (l : List Timer) :
    ∀ db : DB, atMostOneActive db →
      (∀ t ∈ l, ∀ u ∈ db.timers,
        u.incident_id = t.incident_id → u.is_active = true → u.id = t.id) →
      List.Pairwise (fun a b => a.incident_id ≠ b.incident_id) l →
      atMostOneActive (runTimers st env noFaults statusOf now db l).1 := by
  induction l with
  | nil =>
    intro db hinv _ _
    simpa [runTimers] using hinv
  | cons t rest ih =>
    intro db hinv hsole hpw
    obtain ⟨hstep_inv, hstep_mem⟩ := processTimer_preserves db st env now
      (statusOf t.incident_id) t hinv (hsole t (List.mem_cons_self t rest))
    obtain ⟨hpw_head, hpw_tail⟩ := List.pairwise_cons.1 hpw
    simp only [runTimers]
    apply ih
    · exact hstep_inv
    · intro t2 ht2 u hu hinc hua
      rcases hstep_mem u hu hua with hud | huinc
      · exact hsole t2 (List.mem_cons_of_mem _ ht2) u hud hinc hua
      · exact absurd (huinc.symm.trans hinc) (hpw_head t2 ht2)
    · exact hpw_tail

lemma insertByFire_perm (t : Timer) (l : List Timer) :
    List.Perm (insertByFire t l) (t :: l) := by
  induction l with
  | nil => exact List.Perm.refl _
  | cons u us ih =>
    unfold insertByFire
    split
    · exact List.Perm.refl _
    · exact (List.Perm.cons u ih).trans (List.Perm.swap t u us)

lemma sortByFire_perm (l : List Timer) : List.Perm (sortByFire l) l := by
  induction l with
  | nil => exact List.Perm.refl _
  | cons t ts ih => exact (insertByFire_perm t (sortByFire ts)).trans (List.Perm.cons t ih)

lemma mem_of_expired {db : DB} {now : Int} {t : Timer} (h : t ∈ expiredTimers db now) :
    t ∈ db.timers ∧ t.is_active = true := by
  unfold expiredTimers at h
  have h2 := (sortByFire_perm _).mem_iff.1 h
  have h3 := List.mem_filter.1 h2
  refine ⟨h3.1, ?_⟩
  have h4 := h3.2
  rw [Bool.and_eq_true] at h4
  exact h4.1

/-- Under the invariant, a sublist of active timers has pairwise distinct
incidents (in particular the expired-timer snapshot). -/
lemma pairwise_incident_filter (pr : Timer → Bool)
    (hpr : ∀ t, pr t = true → t.is_active = true) (l : List Timer)
    (hinv : ∀ j, activeFor l j ≤ 1) :
    List.Pairwise (fun a b : Timer => a.incident_id ≠ b.incident_id) (l.filter pr) := by
  induction l with
  | nil => simp
  | cons x xs ih =>
    have hxs : ∀ j, activeFor xs j ≤ 1 := by
      intro j
      have h1 := hinv j
      unfold activeFor at h1 ⊢
      rw [List.countP_cons] at h1
      omega
    by_cases hx : pr x = true
    · rw [List.filter_cons_of_pos hx]
      refine List.Pairwise.cons ?_ (ih hxs)
      intro b hb hinc
      have hbm := List.mem_filter.1 hb
      have hbact := hpr b hbm.2
      have hxact := hpr x hx
      have h1 : 0 < List.countP
          (fun u => u.incident_id == x.incident_id && u.is_active) xs :=
        List.countP_pos_iff.2 ⟨b, hbm.1, by
          rw [Bool.and_eq_true, beq_iff_eq]
          exact ⟨hinc.symm, hbact⟩⟩
      have h2 := hinv x.incident_id
      unfold activeFor at h2
      rw [List.countP_cons, if_pos (show (x.incident_id == x.incident_id &&
        x.is_active) = true by rw [Bool.and_eq_true, beq_iff_eq]; exact ⟨rfl, hxact⟩)] at h2
      omega
    · rw [List.filter_cons_of_neg hx]
      exact ih hxs

lemma pairwise_incident_expired (db : DB) (now : Int) (hinv : atMostOneActive db) :
    List.Pairwise (fun a b : Timer => a.incident_id ≠ b.incident_id)
      (expiredTimers db now) := by
  unfold expiredTimers
  refine ((sortByFire_perm _).pairwise_iff ?_).2 ?_
  · intro x y hxy
    exact hxy.symm
  · refine pairwise_incident_filter _ ?_ db.timers hinv
    intro t ht
    rw [Bool.and_eq_true] at ht
    exact ht.1

/-- One full reconciler pass preserves the invariant. -/
lemma check_escalations_preserves_inv (db : DB) (st : Settings) (env : TimeEnv)
    (statusOf : String → Option String) (now : Int) (hinv : atMostOneActive db) :
    atMostOneActive (check_escalations db st env noFaults statusOf now).1 := by
  unfold check_escalations
  apply runTimers_preserves
  · exact hinv
  · intro t ht u hu hinc hua
    obtain ⟨htm, htact⟩ := mem_of_expired ht
    exact sole_active_of_inv hinv htm htact u hu hinc hua
  · exact pairwise_incident_expired db now hinv

lemma cancel_preserves_inv (db : DB) (incident : String) (hinv : atMostOneActive db) :
    atMostOneActive (cancel_timer db incident).2 := by
  intro j
  show activeFor (deactivateForIncident db.timers incident) j ≤ 1
  by_cases hj : j = incident
  · subst hj
    rw [activeFor_deactivateForIncident_self]
    omega
  · rw [activeFor_deactivateForIncident_other _ _ _ hj]
    exact hinv j

lemma escalate_preserves_inv (db : DB) (st : Settings) (env : TimeEnv)
    (now nowT : Int) (body : EscalateRequest) (hinv : atMostOneActive db) :
    atMostOneActive (escalate_incident db st env noFaults now nowT body).2 := by
  rcases escalate_incident_timers db st env now nowT body with h | ⟨tm, htm, h⟩
  · rw [h]
    exact hinv
  · intro j
    rw [h, activeFor_append]
    by_cases hj : j = body.incident_id
    · subst hj
      rw [activeFor_deactivateForIncident_self]
      have h1 := activeFor_single_le tm body.incident_id
      omega
    · rw [activeFor_deactivateForIncident_other _ _ _ hj,
        activeFor_single_other tm _ _ htm hj]
      have h1 := hinv j
      omega

lemma start_timer_preserves_inv (db : DB) (st : Settings) (now : Int)
    (body : TimerStartRequest) (hinv : atMostOneActive db)
    (hnone : activeFor db.timers body.incident_id = 0) :
    atMostOneActive (start_timer db st noFaults now body).2 := by
  obtain ⟨tm, htm, hts⟩ : ∃ tm : Timer, tm.incident_id = body.incident_id ∧
      (start_timer db st noFaults now body).2.timers = db.timers ++ [tm] := by
    refine ⟨_, ?_, rfl⟩
    rfl
  intro j
  rw [hts, activeFor_append]
  by_cases hj : j = body.incident_id
  · subst hj
    rw [hnone]
    have h1 := activeFor_single_le tm body.incident_id
    omega
  · rw [activeFor_single_other tm _ _ htm hj]
    have h1 := hinv j
    omega

/-! ### C5 — the claim, its counterexample and the amended theorem -/

/-- A `POST /timers/start` request for incident inc-1. -/
def reqStart : TimerStartRequest := ⟨"inc-1", "platform", "alice@example.com"⟩

/-- Counterexample to claim C5 as stated: starting from the empty store,
the two-operation sequence "start a timer for inc-1, start a timer for
inc-1 again" leaves two active timers for inc-1 — `POST /timers/start`
inserts unconditionally, so the at-most-one-active-timer invariant is not
preserved by every operation sequence. -/
theorem timer_invariant_cex :
    ¬ atMostOneActive
        (start_timer (start_timer emptyDB defaultSettings noFaults 0 reqStart).2
          defaultSettings noFaults 0 reqStart).2 := by
  intro h
  have h1 := h "inc-1"
  have h2 : activeFor
      (start_timer (start_timer emptyDB defaultSettings noFaults 0 reqStart).2
        defaultSettings noFaults 0 reqStart).2.timers "inc-1" = 2 := by decide
  omega

/-- Claim C5 (amended): manual escalation, timer cancellation and full
reconciler passes preserve the at-most-one-active-timer-per-incident
invariant from any state satisfying it; timer start preserves it exactly
when the incident has no active timer yet (it inserts unconditionally, so
a repeated start for the same incident violates the invariant, as the
counterexample shows). -/
theorem timer_invariant_preservation :
    (∀ (db : DB) (incident : String), atMostOneActive db →
       atMostOneActive (cancel_timer db incident).2)
  ∧ (∀ (db : DB) (st : Settings) (env : TimeEnv) (now nowT : Int)
       (body : EscalateRequest), atMostOneActive db →
       atMostOneActive (escalate_incident db st env noFaults now nowT body).2)
  ∧ (∀ (db : DB) (st : Settings) (now : Int) (body : TimerStartRequest),
       atMostOneActive db → activeFor db.timers body.incident_id = 0 →
       atMostOneActive (start_timer db st noFaults now body).2)
  ∧ (∀ (db : DB) (st : Settings) (env : TimeEnv) (statusOf : String → Option String)
       (now : Int), atMostOneActive db →
       atMostOneActive (check_escalations db st env noFaults statusOf now).1) := by
  refine ⟨?_, ?_, ?_, ?_⟩
  · intro db incident hinv
    exact cancel_preserves_inv db incident hinv
  · intro db st env now nowT body hinv
    exact escalate_preserves_inv db st env now nowT body hinv
  · intro db st now body hinv hnone
    exact start_timer_preserves_inv db st now body hinv hnone
  · intro db st env statusOf now hinv
    exact check_escalations_preserves_inv db st env statusOf now hinv

/-- Witness for amended C5: all four preservation statements applied to
concrete stores satisfying the invariant. -/
theorem timer_invariant_preservation_witness :
    atMostOneActive (cancel_timer dbT "inc-1").2
  ∧ atMostOneActive (escalate_incident dbT defaultSettings envW noFaults 100 100 reqW).2
  ∧ atMostOneActive (start_timer dbW defaultSettings noFaults 0 reqStart).2
  ∧ atMostOneActive
      (check_escalations dbT defaultSettings envW noFaults (fun _ => none) 0).1 := by
  have hinvT : atMostOneActive dbT := by
    intro inc
    exact le_trans (List.countP_le_length _) (by decide)
  have hinvW : atMostOneActive dbW := by
    intro inc
    exact le_trans (List.countP_le_length _) (by decide)
  refine ⟨?_, ?_, ?_, ?_⟩
  · exact timer_invariant_preservation.1 dbT "inc-1" hinvT
  · exact timer_invariant_preservation.2.1 dbT defaultSettings envW 100 100 reqW hinvT
  · exact timer_invariant_preservation.2.2.1 dbW defaultSettings 0 reqStart hinvW
      (by decide)
  · exact timer_invariant_preservation.2.2.2 dbT defaultSettings envW (fun _ => none)
      0 hinvT

end Oncall
